import Mathlib

set_option maxHeartbeats 1600000
set_option maxRecDepth 4000

/-!
Verification of the DRACOON settings adapter (`src/dracoon/settings.py`)
against its natural-language specification.

The Python source is shallowly embedded: dictionaries become association
lists of `String × Val` in insertion order, `Optional` arguments become
`Option`, Python truthiness of optional arguments is made explicit via
the `pyTruthy*` helpers, exceptions become `Except`, and the async
dispatch pattern (test connection, conditionally refresh, send) becomes
an explicit event trace driven by an oracle environment.
-/

/-- JSON-like values occurring in request payload dictionaries.
`Val.none` is Python `None` / JSON `null`. -/
inductive Val where
  | str (s : String)
  | int (n : Int)
  | bool (b : Bool)
  | strList (l : List String)
  | none
  deriving Repr, DecidableEq

/-- A Python dict used as a JSON payload: key/value pairs in insertion order. -/
abbrev Payload := List (String × Val)

/-- Keys of a payload, in order. -/
def keysOf (p : Payload) : List String := p.map Prod.fst

/-- Python truthiness of an `Optional[bool]` argument:
`None` and `False` are falsy, `True` is truthy. -/
def pyTruthyBool : Option Bool → Bool
  | some b => b
  | Option.none => false

/-- Python truthiness of an `Optional[int]` argument:
`None` and `0` are falsy. -/
def pyTruthyInt : Option Int → Bool
  | some n => n != 0
  | Option.none => false

/-- Python truthiness of an `Optional[str]` argument:
`None` and the empty string are falsy. -/
def pyTruthyStr : Option String → Bool
  | some s => s != ""
  | Option.none => false

/-- Python truthiness of an `Optional[List[str]]` argument:
`None` and the empty list are falsy. -/
def pyTruthyList : Option (List String) → Bool
  | some l => l != []
  | Option.none => false

/-- Embedding of `DRACOONSettings.make_settings_update`
(src/dracoon/settings.py lines 69-80).  Raising `ValueError` is the
`Except.error` branch; each `if x: d[k] = v` line is a truthiness-guarded
append.  In Python `home_rooms_active == False` holds exactly for the
argument `False` (not for `None`), and after that check `if
home_rooms_active:` holds exactly for `True`. -/
def make_settings_update (home_rooms_active : Option Bool)
    (home_room_quota : Option Int) (home_room_parent_name : Option String) :
    Except String Payload :=
  if home_rooms_active = some false then
    Except.error "Home rooms cannot be deactivated"
  else
    let settings_update : Payload := []
    let settings_update :=
      if pyTruthyBool home_rooms_active then
        settings_update ++ [("homeRoomsActive", Val.bool (home_rooms_active.getD true))]
      else settings_update
    let settings_update :=
      if pyTruthyInt home_room_quota then
        settings_update ++ [("homeRoomQuota", Val.int (home_room_quota.getD 0))]
      else settings_update
    let settings_update :=
      if pyTruthyStr home_room_parent_name then
        settings_update ++ [("homeRoomParentName", Val.str (home_room_parent_name.getD ""))]
      else settings_update
    Except.ok settings_update

/-- Embedding of `DRACOONSettings.make_webhook`
(src/dracoon/settings.py lines 120-133).  `name`, `eventTypeNames` and
`url` are put in the dict unconditionally; `secret` is guarded by
truthiness (`if secret:`), while `isEnabled` and `triggerExampleEvent`
are guarded by `is not None`. -/
def make_webhook (name : String) (event_types : List String) (url : String)
    (secret : Option String) (is_enabled : Option Bool)
    (trigger_example : Option Bool) : Payload :=
  let webhook : Payload :=
    [("name", Val.str name), ("eventTypeNames", Val.strList event_types),
     ("url", Val.str url)]
  let webhook :=
    if pyTruthyStr secret then webhook ++ [("secret", Val.str (secret.getD ""))]
    else webhook
  let webhook :=
    if is_enabled.isSome then webhook ++ [("isEnabled", Val.bool (is_enabled.getD false))]
    else webhook
  let webhook :=
    if trigger_example.isSome then
      webhook ++ [("triggerExampleEvent", Val.bool (trigger_example.getD false))]
    else webhook
  webhook

/-- Embedding of `DRACOONSettings.make_webhook_update`
(src/dracoon/settings.py lines 135-147).  All arguments are optional;
`name`, `event_types`, `url` and `secret` are guarded by truthiness
(`if x:`), while `is_enabled` and `trigger_example` are guarded by
`is not None`. -/
def make_webhook_update (name : Option String) (event_types : Option (List String))
    (url : Option String) (secret : Option String) (is_enabled : Option Bool)
    (trigger_example : Option Bool) : Payload :=
  let webhook : Payload := []
  let webhook :=
    if pyTruthyStr name then webhook ++ [("name", Val.str (name.getD ""))]
    else webhook
  let webhook :=
    if pyTruthyList event_types then
      webhook ++ [("eventTypeNames", Val.strList (event_types.getD []))]
    else webhook
  let webhook :=
    if pyTruthyStr url then webhook ++ [("url", Val.str (url.getD ""))]
    else webhook
  let webhook :=
    if pyTruthyStr secret then webhook ++ [("secret", Val.str (secret.getD ""))]
    else webhook
  let webhook :=
    if is_enabled.isSome then webhook ++ [("isEnabled", Val.bool (is_enabled.getD false))]
    else webhook
  let webhook :=
    if trigger_example.isSome then
      webhook ++ [("triggerExampleEvent", Val.bool (trigger_example.getD false))]
    else webhook
  webhook

/-- Modelled from the spec: `DRACOONClient` (from `dracoon.core`, not in
src/).  Per spec §3, a Connection has `baseUrl` and `apiBasePath` fixed at
construction and a state `Disconnected`/`Connected`; `connection` is the
truthiness of the client's connection attribute tested by
`DRACOONSettings.__init__`. -/
structure DRACOONClient where
  connection : Bool
  base_url : String
  api_base_url : String
  deriving Repr, DecidableEq

/-- The state a successfully constructed `DRACOONSettings` instance holds:
the attributes assigned in `__init__` (src/dracoon/settings.py lines
33-35): `self.dracoon` and `self.api_url`. -/
structure DRACOONSettings where
  dracoon : DRACOONClient
  api_url : String
  deriving Repr, DecidableEq

/-- Errors `DRACOONSettings.__init__` can raise. -/
inductive InitError where
  | typeError (msg : String)
  | valueError (msg : String)
  deriving Repr, DecidableEq

/-- The argument passed to `DRACOONSettings.__init__`: either an actual
`DRACOONClient` instance or any other value, which fails the
`isinstance(dracoon_client, DRACOONClient)` check. -/
inductive InitArg where
  | client (c : DRACOONClient)
  | notAClient
  deriving Repr, DecidableEq

/-- Embedding of `DRACOONSettings.__init__`
(src/dracoon/settings.py lines 29-37). -/
def dracoon_settings_init : InitArg → Except InitError DRACOONSettings
  | InitArg.notAClient => Except.error (InitError.typeError "Invalid DRACOON client format.")
  | InitArg.client c =>
      if c.connection then
        Except.ok { dracoon := c, api_url := c.base_url ++ c.api_base_url ++ "/settings" }
      else
        Except.error (InitError.valueError "DRACOON client must be connected: client.connect()")

/-- Python attribute lookup on a `DRACOONSettings` instance, restricted to
its string-valued attributes.  `__init__` assigns only `dracoon` and
`api_url`; any other name (in particular `pi_url`, referenced by
`update_settings` at src/dracoon/settings.py line 62) is unresolved and
raises `AttributeError` at runtime, modelled as `none`. -/
def getStrAttr (self : DRACOONSettings) (attr : String) : Option String :=
  if attr = "api_url" then some self.api_url else Option.none

/-- Embedding of the URL construction in the async
`DRACOONSettings.get_webhooks` (src/dracoon/settings.py lines 88-91):
start from `api_url + "/webhooks/?offset=" + str(offset)` and append each
optional parameter exactly when it `!= None`. -/
def get_webhooks_url (api_url : String) (offset : Int) (filter : Option String)
    (limit : Option Int) (sort : Option String) : String :=
  let u := api_url ++ "/webhooks/?offset=" ++ toString offset
  let u := match filter with
    | some f => u ++ "&filter=" ++ f
    | Option.none => u
  let u := match limit with
    | some l => u ++ "&limit=" ++ toString l
    | Option.none => u
  match sort with
  | some s => u ++ "&sort=" ++ s
  | Option.none => u

/-- A legacy request descriptor as produced by the legacy API functions
(src/dracoon/settings.py lines 225-313). -/
structure ApiCall where
  url : String
  body : Option Payload
  method : String
  content_type : String
  deriving Repr, DecidableEq

/-- Embedding of the legacy descriptor function `get_webhooks`
(src/dracoon/settings.py lines 247-259). -/
def legacy_get_webhooks (offset : Int) (filter : Option String)
    (limit : Option Int) (sort : Option String) : ApiCall :=
  let api_call : ApiCall :=
    { url := "/settings/webhooks?offset=" ++ toString offset
      body := Option.none
      method := "GET"
      content_type := "application/json" }
  let api_call := match filter with
    | some f => { api_call with url := api_call.url ++ "&filter=" ++ f }
    | Option.none => api_call
  let api_call := match limit with
    | some l => { api_call with url := api_call.url ++ "&limit=" ++ toString l }
    | Option.none => api_call
  match sort with
  | some s => { api_call with url := api_call.url ++ "&sort=" ++ s }
  | Option.none => api_call

/-- Join query parameters with a single ampersand. -/
def joinAmp : List String → String
  | [] => ""
  | [p] => p
  | p :: rest => p ++ "&" ++ joinAmp rest

/-- The query string as the spec describes it (§4.3): `offset` always
present, then `filter`, `limit`, `sort` exactly when provided, in that
fixed order, joined with ampersands; `limit` passed through unchanged. -/
def canonicalQuery (offset : Int) (filter : Option String)
    (limit : Option Int) (sort : Option String) : String :=
  joinAmp (["offset=" ++ toString offset]
    ++ (match filter with | some f => ["filter=" ++ f] | Option.none => [])
    ++ (match limit with | some l => ["limit=" ++ toString l] | Option.none => [])
    ++ (match sort with | some s => ["sort=" ++ s] | Option.none => []))

/-- Observable events of one dispatched operation.  `check` is the awaited
`self.dracoon.test_connection()`, `refresh` is the awaited
`self.dracoon.connect(OAuth2ConnectionType.refresh_token)`, and
`send m u` is an attempted HTTP exchange with method `m` against URL `u`. -/
inductive Event where
  | check
  | refresh
  | send (method : String) (url : String)
  deriving Repr, DecidableEq

/-- How a dispatched operation can fail.  `refreshFailed` is an exception
propagating out of `connect(...)`; `requestError u` is the
`httpx.RequestError` re-raised in the `except` block, whose message
carries the target URL `u` (`e.request.url`); `attrError a` is the
`AttributeError` raised when an instance attribute named `a` is not
found. -/
inductive DispatchError where
  | refreshFailed
  | requestError (url : String)
  | attrError (attr : String)
  deriving Repr, DecidableEq

/-- Oracle environment for one dispatch: the outcome of the session probe,
the truthiness of `self.dracoon.connection`, whether the refresh exchange
would succeed, and whether the HTTP transport exchange would receive a
response. -/
structure Env where
  test_connection : Bool
  connection : Bool
  refresh_ok : Bool
  transport_ok : Bool
  deriving Repr, DecidableEq

/-- Result of one dispatched operation: the trace of observable events and
either success or the raised error. -/
structure Outcome where
  events : List Event
  result : Except DispatchError Unit
  deriving Repr

/-- The session guard shared verbatim by every dispatching method of
`DRACOONSettings` (e.g. src/dracoon/settings.py lines 42-43):
`if not await self.dracoon.test_connection() and self.dracoon.connection:
await self.dracoon.connect(OAuth2ConnectionType.refresh_token)`.
Returns the events performed and whether control continues (an exception
from `connect` aborts the method). -/
def sessionGuard (env : Env) : List Event × Bool :=
  if !env.test_connection && env.connection then
    ([Event.check, Event.refresh], env.refresh_ok)
  else
    ([Event.check], true)

/-- One HTTP attempt inside the `try`/`except httpx.RequestError` block:
on transport failure the code re-raises `httpx.RequestError` with a
message carrying `e.request.url`. -/
def sendStep (env : Env) (method url : String) : List Event × Except DispatchError Unit :=
  ([Event.send method url],
   if env.transport_ok then Except.ok () else Except.error (DispatchError.requestError url))

/-- Embedding of `DRACOONSettings.get_settings`
(src/dracoon/settings.py lines 40-51): guard, then GET `self.api_url`. -/
def run_get_settings (self : DRACOONSettings) (env : Env) : Outcome :=
  let g := sessionGuard env
  if g.2 then
    let s := sendStep env "GET" self.api_url
    { events := g.1 ++ s.1, result := s.2 }
  else
    { events := g.1, result := Except.error DispatchError.refreshFailed }

/-- Embedding of `DRACOONSettings.update_settings`
(src/dracoon/settings.py lines 53-67): guard, build the payload, then PUT
to `self.pi_url` — an attribute `__init__` never assigns, so the
attribute lookup fails before any HTTP exchange. -/
def run_update_settings (self : DRACOONSettings) (env : Env) : Outcome :=
  let g := sessionGuard env
  if g.2 then
    match getStrAttr self "pi_url" with
    | some url =>
        let s := sendStep env "PUT" url
        { events := g.1 ++ s.1, result := s.2 }
    | Option.none =>
        { events := g.1, result := Except.error (DispatchError.attrError "pi_url") }
  else
    { events := g.1, result := Except.error DispatchError.refreshFailed }

/-- Embedding of the async `DRACOONSettings.get_webhooks`
(src/dracoon/settings.py lines 82-100): guard, build the URL, GET. -/
def run_get_webhooks (self : DRACOONSettings) (env : Env) (offset : Int)
    (filter : Option String) (limit : Option Int) (sort : Option String) : Outcome :=
  let g := sessionGuard env
  if g.2 then
    let s := sendStep env "GET" (get_webhooks_url self.api_url offset filter limit sort)
    { events := g.1 ++ s.1, result := s.2 }
  else
    { events := g.1, result := Except.error DispatchError.refreshFailed }

/-- Embedding of `DRACOONSettings.create_webhook`
(src/dracoon/settings.py lines 103-118): the payload is built first, then
the guard runs, then POST `self.api_url + "/webhooks"`. -/
def run_create_webhook (self : DRACOONSettings) (env : Env) : Outcome :=
  let g := sessionGuard env
  if g.2 then
    let s := sendStep env "POST" (self.api_url ++ "/webhooks")
    { events := g.1 ++ s.1, result := s.2 }
  else
    { events := g.1, result := Except.error DispatchError.refreshFailed }

/-- Embedding of `DRACOONSettings.get_webhook`
(src/dracoon/settings.py lines 151-165). -/
def run_get_webhook (self : DRACOONSettings) (env : Env) (hook_id : Int) : Outcome :=
  let g := sessionGuard env
  if g.2 then
    let s := sendStep env "GET" (self.api_url ++ "/webhooks/" ++ toString hook_id)
    { events := g.1 ++ s.1, result := s.2 }
  else
    { events := g.1, result := Except.error DispatchError.refreshFailed }

/-- Embedding of `DRACOONSettings.update_webhook`
(src/dracoon/settings.py lines 167-183). -/
def run_update_webhook (self : DRACOONSettings) (env : Env) (hook_id : Int) : Outcome :=
  let g := sessionGuard env
  if g.2 then
    let s := sendStep env "PUT" (self.api_url ++ "/webhooks/" ++ toString hook_id)
    { events := g.1 ++ s.1, result := s.2 }
  else
    { events := g.1, result := Except.error DispatchError.refreshFailed }

/-- Embedding of `DRACOONSettings.delete_webhook`
(src/dracoon/settings.py lines 186-199). -/
def run_delete_webhook (self : DRACOONSettings) (env : Env) (hook_id : Int) : Outcome :=
  let g := sessionGuard env
  if g.2 then
    let s := sendStep env "DELETE" (self.api_url ++ "/webhooks/" ++ toString hook_id)
    { events := g.1 ++ s.1, result := s.2 }
  else
    { events := g.1, result := Except.error DispatchError.refreshFailed }

/-- Embedding of `DRACOONSettings.get_webhook_event_types`
(src/dracoon/settings.py lines 202-216). -/
def run_get_webhook_event_types (self : DRACOONSettings) (env : Env) : Outcome :=
  let g := sessionGuard env
  if g.2 then
    let s := sendStep env "GET" (self.api_url ++ "/webhooks/event_types")
    { events := g.1 ++ s.1, result := s.2 }
  else
    { events := g.1, result := Except.error DispatchError.refreshFailed }

/-- The eight dispatching operations of `DRACOONSettings`, with the call
arguments that shape their request. -/
inductive OpCall where
  | getSettings
  | updateSettings
  | getWebhooks (offset : Int) (filter : Option String) (limit : Option Int) (sort : Option String)
  | createWebhook
  | getWebhook (hook_id : Int)
  | updateWebhook (hook_id : Int)
  | deleteWebhook (hook_id : Int)
  | getWebhookEventTypes
  deriving Repr, DecidableEq

/-- Dispatch one operation of `DRACOONSettings`. -/
def runOp (self : DRACOONSettings) (env : Env) : OpCall → Outcome
  | OpCall.getSettings => run_get_settings self env
  | OpCall.updateSettings => run_update_settings self env
  | OpCall.getWebhooks offset filter limit sort =>
      run_get_webhooks self env offset filter limit sort
  | OpCall.createWebhook => run_create_webhook self env
  | OpCall.getWebhook hook_id => run_get_webhook self env hook_id
  | OpCall.updateWebhook hook_id => run_update_webhook self env hook_id
  | OpCall.deleteWebhook hook_id => run_delete_webhook self env hook_id
  | OpCall.getWebhookEventTypes => run_get_webhook_event_types self env

/-- Whether an event is an HTTP send attempt. -/
def isSend : Event → Bool
  | Event.send _ _ => true
  | _ => false

/-- Modelled from the spec: a pydantic `BaseModel` instance.  The models
`UpdateSettings` and `UpdateWebhook` live in `settings_models.py`, which
is not under src/.  Per spec §6 (partial-update semantics), a model
instance carries every declared field — unset ones holding `None` — plus
the set of field names explicitly provided at construction, and
`dict(exclude_unset=True)` emits, in declaration order, exactly the
explicitly set fields. -/
structure PydModel where
  declared : List (String × Val)
  fields_set : List String
  deriving Repr

/-- Modelled from the spec: pydantic `dict(exclude_unset=True)` — keep
only the fields explicitly provided at construction. -/
def dict_exclude_unset (m : PydModel) : Payload :=
  m.declared.filter (fun kv => m.fields_set.contains kv.1)

/-- Modelled from the spec: constructing a pydantic model from keyword
arguments (`Model(**d)`, the coercion `@validate_arguments` applies to a
dict argument): every declared field name takes its value from `d`, or
`None` if absent, and exactly the keys of `d` are recorded as set. -/
def pydModelOfDict (field_names : List String) (d : Payload) : PydModel :=
  { declared := field_names.map (fun k => (k, ((d.lookup k).getD Val.none)))
    fields_set := keysOf d }

/-- Declared fields of the `UpdateWebhook` model, in the order the
builder `make_webhook_update` uses them. -/
def updateWebhookFields : List String :=
  ["name", "eventTypeNames", "url", "secret", "isEnabled", "triggerExampleEvent"]

/-- Declared fields of the `UpdateSettings` model, in the order the
builder `make_settings_update` uses them. -/
def updateSettingsFields : List String :=
  ["homeRoomsActive", "homeRoomQuota", "homeRoomParentName"]

/-- The JSON body `DRACOONSettings.update_webhook` serializes
(src/dracoon/settings.py line 170): `hook_update.dict(exclude_unset=True)`
after the dict built by `make_webhook_update` has been coerced to an
`UpdateWebhook` model. -/
def update_webhook_body (d : Payload) : Payload :=
  dict_exclude_unset (pydModelOfDict updateWebhookFields d)

/-- The JSON body `DRACOONSettings.update_settings` serializes
(src/dracoon/settings.py line 59): `settings_update.dict(exclude_unset=True)`
after the dict built by `make_settings_update` has been coerced to an
`UpdateSettings` model. -/
def update_settings_body (d : Payload) : Payload :=
  dict_exclude_unset (pydModelOfDict updateSettingsFields d)

/-- Spec-side list of body keys the caller explicitly provided to
`make_webhook_update` (argument not `None`), in builder order. -/
def providedWebhookUpdateKeys (name : Option String) (event_types : Option (List String))
    (url : Option String) (secret : Option String) (is_enabled : Option Bool)
    (trigger_example : Option Bool) : List String :=
  (if name.isSome then ["name"] else [])
    ++ (if event_types.isSome then ["eventTypeNames"] else [])
    ++ (if url.isSome then ["url"] else [])
    ++ (if secret.isSome then ["secret"] else [])
    ++ (if is_enabled.isSome then ["isEnabled"] else [])
    ++ (if trigger_example.isSome then ["triggerExampleEvent"] else [])

/-- Spec-side list of body keys the caller explicitly provided to
`make_settings_update` (argument not `None`), in builder order. -/
def providedSettingsKeys (home_rooms_active : Option Bool)
    (home_room_quota : Option Int) (home_room_parent_name : Option String) : List String :=
  (if home_rooms_active.isSome then ["homeRoomsActive"] else [])
    ++ (if home_room_quota.isSome then ["homeRoomQuota"] else [])
    ++ (if home_room_parent_name.isSome then ["homeRoomParentName"] else [])

/-- C4: `make_settings_update` with `home_rooms_active = False` raises
`ValueError` immediately (in the embedding: returns `Except.error`
without building any payload or touching the network — the function is
pure), and no other argument combination raises. -/
theorem make_settings_update_rejects_deactivation
    (home_rooms_active : Option Bool) (home_room_quota : Option Int)
    (home_room_parent_name : Option String) :
    (∀ q p, make_settings_update (some false) q p
        = Except.error "Home rooms cannot be deactivated")
    ∧ (home_rooms_active ≠ some false →
        ∃ u, make_settings_update home_rooms_active home_room_quota home_room_parent_name
          = Except.ok u) := by
  constructor
  · intro q p
    simp [make_settings_update]
  · intro h
    unfold make_settings_update
    rw [if_neg h]
    exact ⟨_, rfl⟩

/-- Witness for C4 at concrete inputs. -/
theorem make_settings_update_rejects_deactivation_witness :
    (make_settings_update (some false) (some 5) (some "Home")
        = Except.error "Home rooms cannot be deactivated")
    ∧ ∃ u, make_settings_update (some true) (some 5) (some "Home") = Except.ok u := by
  exact ⟨(make_settings_update_rejects_deactivation (some true) (some 5) (some "Home")).1
          (some 5) (some "Home"),
         (make_settings_update_rejects_deactivation (some true) (some 5) (some "Home")).2
          (by decide)⟩

/-- C8: the builders drop falsy values, not only absent ones: a zero
`home_room_quota` produces no `homeRoomQuota` key, and an empty-string
`name`/`url` or empty `event_types` list produces no corresponding key in
`make_webhook_update`. -/
theorem falsy_builder_arguments_dropped
    (a : Option Bool) (p : Option String)
    (n : Option String) (e : Option (List String)) (u s : Option String)
    (ie te : Option Bool) :
    (∀ pay, make_settings_update a (some 0) p = Except.ok pay →
        "homeRoomQuota" ∉ keysOf pay)
    ∧ "name" ∉ keysOf (make_webhook_update (some "") e u s ie te)
    ∧ "url" ∉ keysOf (make_webhook_update n e (some "") s ie te)
    ∧ "eventTypeNames" ∉ keysOf (make_webhook_update n (some []) u s ie te) := by
  refine ⟨?_, ?_, ?_, ?_⟩
  · intro pay h
    unfold make_settings_update at h
    split at h
    · exact absurd h (by simp)
    · simp only [Except.ok.injEq] at h
      subst h
      simp [keysOf, pyTruthyInt, pyTruthyBool, pyTruthyStr]
      split_ifs <;> simp
  · simp [make_webhook_update, keysOf, pyTruthyStr, pyTruthyList]
    split_ifs <;> simp
  · simp [make_webhook_update, keysOf, pyTruthyStr, pyTruthyList]
    split_ifs <;> simp
  · simp [make_webhook_update, keysOf, pyTruthyStr, pyTruthyList]
    split_ifs <;> simp

/-- Witness for C8 at concrete inputs. -/
theorem falsy_builder_arguments_dropped_witness :
    "homeRoomQuota" ∉ keysOf [("homeRoomsActive", Val.bool true)]
    ∧ "name" ∉ keysOf
        (make_webhook_update (some "") Option.none Option.none Option.none
          Option.none Option.none) := by
  constructor
  · exact (falsy_builder_arguments_dropped (some true) Option.none Option.none
      Option.none Option.none Option.none Option.none Option.none).1
      [("homeRoomsActive", Val.bool true)] rfl
  · exact (falsy_builder_arguments_dropped (some true) Option.none (some "")
      Option.none Option.none Option.none Option.none Option.none).2.1

/-- C9: `make_webhook` always emits `name`, `eventTypeNames` and `url`;
`isEnabled` and `triggerExampleEvent` appear exactly when the argument is
not `None` (an explicit `False` is kept), while `secret` appears exactly
when it is truthy, so an explicit empty-string secret is silently
omitted; no key outside these six ever appears. -/
theorem make_webhook_payload_keys
    (name : String) (event_types : List String) (url : String)
    (secret : Option String) (is_enabled : Option Bool)
    (trigger_example : Option Bool) :
    ("name", Val.str name) ∈ make_webhook name event_types url secret is_enabled trigger_example
    ∧ ("eventTypeNames", Val.strList event_types)
        ∈ make_webhook name event_types url secret is_enabled trigger_example
    ∧ ("url", Val.str url) ∈ make_webhook name event_types url secret is_enabled trigger_example
    ∧ (∀ b, ("isEnabled", Val.bool b)
          ∈ make_webhook name event_types url secret is_enabled trigger_example
        ↔ is_enabled = some b)
    ∧ (∀ b, ("triggerExampleEvent", Val.bool b)
          ∈ make_webhook name event_types url secret is_enabled trigger_example
        ↔ trigger_example = some b)
    ∧ (∀ s, ("secret", Val.str s)
          ∈ make_webhook name event_types url secret is_enabled trigger_example
        ↔ secret = some s ∧ s ≠ "")
    ∧ (∀ k, k ∈ keysOf (make_webhook name event_types url secret is_enabled trigger_example)
        → k ∈ updateWebhookFields) := by
  unfold make_webhook
  refine ⟨?_, ?_, ?_, ?_, ?_, ?_, ?_⟩
  · split_ifs <;> simp
  · split_ifs <;> simp
  · split_ifs <;> simp
  · intro b
    cases is_enabled <;> split_ifs <;> simp_all <;> exact eq_comm
  · intro b
    cases trigger_example <;> split_ifs <;> simp_all <;> exact eq_comm
  · intro s
    cases secret with
    | none => simp [pyTruthyStr]; split_ifs <;> simp
    | some s0 =>
        by_cases h0 : s0 = ""
        · subst h0
          simp [pyTruthyStr]
          split_ifs <;> simp <;> intro h <;> simp [h]
        · simp [pyTruthyStr, h0]
          split_ifs <;> simp [eq_comm, h0] <;> intro h <;> simp_all
  · intro k
    simp [keysOf, updateWebhookFields]
    split_ifs <;> simp <;> tauto

/-- Witness for C9 at concrete inputs. -/
theorem make_webhook_payload_keys_witness :
    ("isEnabled", Val.bool false)
      ∈ make_webhook "hook" ["node.created"] "https://x.example" (some "") (some false)
          Option.none
    ∧ ¬ (("secret", Val.str "")
      ∈ make_webhook "hook" ["node.created"] "https://x.example" (some "") (some false)
          Option.none) := by
  constructor
  · exact ((make_webhook_payload_keys "hook" ["node.created"] "https://x.example" (some "")
      (some false) Option.none).2.2.2.1 false).2 rfl
  · intro h
    exact (((make_webhook_payload_keys "hook" ["node.created"] "https://x.example" (some "")
      (some false) Option.none).2.2.2.2.2.1 "").1 h).2 rfl

/-- C3: both `get_webhooks` variants produce the canonical query string of
spec §4.3: `offset` always present and first, then `filter`, `limit`,
`sort` exactly when provided, joined with ampersands in that fixed order,
with `limit` passed through unclamped (`canonicalQuery` renders it as
`toString limit` unchanged). -/
theorem get_webhooks_query_canonical (api_url : String) (offset : Int)
    (filter : Option String) (limit : Option Int) (sort : Option String)
    (hoff : 0 ≤ offset) :
    get_webhooks_url api_url offset filter limit sort
        = api_url ++ "/webhooks/?" ++ canonicalQuery offset filter limit sort
    ∧ (legacy_get_webhooks offset filter limit sort).url
        = "/settings/webhooks?" ++ canonicalQuery offset filter limit sort
    ∧ (legacy_get_webhooks offset filter limit sort).method = "GET" := by
  refine ⟨?_, ?_, ?_⟩
  · cases filter <;> cases limit <;> cases sort <;>
      (apply String.ext;
       simp [get_webhooks_url, canonicalQuery, joinAmp, String.data_append,
         show "/webhooks/?offset=".data = "/webhooks/?".data ++ "offset=".data from rfl,
         show "&filter=".data = "&".data ++ "filter=".data from rfl,
         show "&limit=".data = "&".data ++ "limit=".data from rfl,
         show "&sort=".data = "&".data ++ "sort=".data from rfl])
  · cases filter <;> cases limit <;> cases sort <;>
      (apply String.ext;
       simp [legacy_get_webhooks, canonicalQuery, joinAmp, String.data_append,
         show "/settings/webhooks?offset=".data
             = "/settings/webhooks?".data ++ "offset=".data from rfl,
         show "&filter=".data = "&".data ++ "filter=".data from rfl,
         show "&limit=".data = "&".data ++ "limit=".data from rfl,
         show "&sort=".data = "&".data ++ "sort=".data from rfl])
  · cases filter <;> cases limit <;> cases sort <;> rfl

/-- Witness for C3 at concrete inputs, matching the spec §8 example
`offset=10&filter=x&sort=name` when `limit` is absent. -/
theorem get_webhooks_query_canonical_witness :
    get_webhooks_url "https://h/api" 10 (some "x") Option.none (some "name")
        = "https://h/api" ++ "/webhooks/?"
            ++ canonicalQuery 10 (some "x") Option.none (some "name")
    ∧ canonicalQuery 10 (some "x") Option.none (some "name")
        = "offset=10&filter=x&sort=name" := by
  exact ⟨(get_webhooks_query_canonical "https://h/api" 10 (some "x") Option.none
    (some "name") (by decide)).1, rfl⟩

/-- C2: for every dispatching operation of `DRACOONSettings`, the session
check is the first observable event (hence precedes any HTTP send); a
refresh happens exactly when the check fails while `self.dracoon.connection`
is truthy; and a failed refresh aborts the operation before any HTTP send. -/
theorem dispatch_guard_contract (self : DRACOONSettings) (env : Env) (op : OpCall) :
    (runOp self env op).events.head? = some Event.check
    ∧ (Event.refresh ∈ (runOp self env op).events
        ↔ (!env.test_connection && env.connection) = true)
    ∧ ((!env.test_connection && env.connection) = true → env.refresh_ok = false →
        (runOp self env op).events.filter isSend = []
        ∧ (runOp self env op).result = Except.error DispatchError.refreshFailed) := by
  rcases env with ⟨tc, cn, ro, tp⟩
  cases op <;> cases tc <;> cases cn <;> cases ro <;> cases tp <;>
    simp [runOp, run_get_settings, run_update_settings, run_get_webhooks,
      run_create_webhook, run_get_webhook, run_update_webhook, run_delete_webhook,
      run_get_webhook_event_types, sessionGuard, sendStep, getStrAttr, isSend]

/-- Witness for C2: with an expired session, a live connection and a
failing refresh, `get_settings` performs no HTTP send and surfaces the
refresh failure. -/
theorem dispatch_guard_contract_witness :
    (runOp ⟨⟨true, "https://h", "/api"⟩, "https://h/api/settings"⟩
        ⟨false, true, false, true⟩ OpCall.getSettings).events.filter isSend = []
    ∧ (runOp ⟨⟨true, "https://h", "/api"⟩, "https://h/api/settings"⟩
        ⟨false, true, false, true⟩ OpCall.getSettings).result
        = Except.error DispatchError.refreshFailed := by
  exact (dispatch_guard_contract ⟨⟨true, "https://h", "/api"⟩, "https://h/api/settings"⟩
    ⟨false, true, false, true⟩ OpCall.getSettings).2.2 rfl rfl

/-- C5: for every dispatching operation, if the HTTP exchange is attempted
and the transport fails, the operation fails with the re-raised
`httpx.RequestError` carrying the target URL, and exactly one send attempt
occurs (no automatic retry). -/
theorem transport_failure_contract (self : DRACOONSettings) (env : Env) (op : OpCall)
    (m u : String) (htr : env.transport_ok = false)
    (hmem : Event.send m u ∈ (runOp self env op).events) :
    (runOp self env op).result = Except.error (DispatchError.requestError u)
    ∧ ((runOp self env op).events.filter isSend).length = 1 := by
  rcases env with ⟨tc, cn, ro, tp⟩
  subst htr
  cases op <;> cases tc <;> cases cn <;> cases ro <;>
    (simp [runOp, run_get_settings, run_update_settings, run_get_webhooks,
       run_create_webhook, run_get_webhook, run_update_webhook, run_delete_webhook,
       run_get_webhook_event_types, sessionGuard, sendStep, getStrAttr, isSend] at hmem ⊢ <;>
     simp_all)

/-- Witness for C5: `get_settings` under a transport failure fails with
the error carrying the target URL and attempts exactly one send. -/
theorem transport_failure_contract_witness :
    (runOp ⟨⟨true, "https://h", "/api"⟩, "https://h/api/settings"⟩
        ⟨true, true, true, false⟩ OpCall.getSettings).result
        = Except.error (DispatchError.requestError "https://h/api/settings")
    ∧ ((runOp ⟨⟨true, "https://h", "/api"⟩, "https://h/api/settings"⟩
        ⟨true, true, true, false⟩ OpCall.getSettings).events.filter isSend).length = 1 := by
  exact transport_failure_contract ⟨⟨true, "https://h", "/api"⟩, "https://h/api/settings"⟩
    ⟨true, true, true, false⟩ OpCall.getSettings "GET" "https://h/api/settings"
    rfl (by decide)

/-- C6 evidence: `update_settings` PUTs to `self.pi_url`, an attribute
`__init__` never assigns (it assigns `api_url` only), so on every call the
attribute lookup fails: no HTTP request is ever sent and the call never
succeeds, while the spec and `get_settings` fix the settings endpoint at
`base_url + api_base_url + "/settings"`. -/
theorem update_settings_pi_url_missing (self : DRACOONSettings) (env : Env) :
    (run_update_settings self env).events.filter isSend = []
    ∧ (run_update_settings self env).result.isOk = false
    ∧ getStrAttr self "pi_url" = Option.none
    ∧ getStrAttr self "api_url" = some self.api_url := by
  rcases env with ⟨tc, cn, ro, tp⟩
  cases tc <;> cases cn <;> cases ro <;> cases tp <;>
    simp [run_update_settings, sessionGuard, sendStep, getStrAttr, isSend, Except.isOk,
      Except.toBool]

/-- C10: construction rejects a non-client argument with `TypeError` and a
disconnected client with `ValueError`; every successfully constructed
instance holds a connected client and the settings URL fixed from it. -/
theorem init_contract (arg : InitArg) (c : DRACOONClient) (s : DRACOONSettings) :
    dracoon_settings_init InitArg.notAClient
        = Except.error (InitError.typeError "Invalid DRACOON client format.")
    ∧ (c.connection = false →
        dracoon_settings_init (InitArg.client c)
          = Except.error
              (InitError.valueError "DRACOON client must be connected: client.connect()"))
    ∧ (dracoon_settings_init arg = Except.ok s →
        s.dracoon.connection = true
        ∧ s.api_url = s.dracoon.base_url ++ s.dracoon.api_base_url ++ "/settings") := by
  refine ⟨rfl, ?_, ?_⟩
  · intro h
    simp [dracoon_settings_init, h]
  · intro h
    cases arg with
    | notAClient => simp [dracoon_settings_init] at h
    | client c0 =>
        by_cases hc : c0.connection = true
        · simp [dracoon_settings_init, hc] at h
          subst h
          simp [hc]
        · simp [dracoon_settings_init, hc] at h

lemma lookup_cons_self (f : String) (v : Val) (d : Payload) :
    List.lookup f ((f, v) :: d) = some v := by
  simp [List.lookup]

lemma lookup_cons_ne (k f : String) (v : Val) (d : Payload) (h : k ≠ f) :
    List.lookup k ((f, v) :: d) = List.lookup k d := by
  have hb : (k == f) = false := beq_eq_false_iff_ne.mpr h
  simp [List.lookup, hb]

/-- Round trip through the spec-modelled pydantic layer: when the keys of
`d` are (in order) among the declared field names, constructing the model
from `d` and serializing with `exclude_unset` returns exactly `d`. -/
lemma dict_exclude_unset_ofDict (fs : List String) (d : Payload)
    (hsub : List.Sublist (keysOf d) fs) (hnd : fs.Nodup) :
    dict_exclude_unset (pydModelOfDict fs d) = d := by
  induction fs generalizing d with
  | nil =>
      have hd : d = [] := by
        have := List.sublist_nil.mp hsub
        cases d with
        | nil => rfl
        | cons kv t => simp [keysOf] at this
      subst hd
      rfl
  | cons f fs ih =>
      cases d with
      | nil =>
          simp [dict_exclude_unset, pydModelOfDict, keysOf, List.filter_eq_nil_iff]
      | cons kv d =>
          obtain ⟨k, v⟩ := kv
          have hsub' : List.Sublist (k :: keysOf d) (f :: fs) := by
            simpa [keysOf] using hsub
          have hf_not : f ∉ fs := (List.nodup_cons.mp hnd).1
          have hnd' : fs.Nodup := (List.nodup_cons.mp hnd).2
          cases hsub' with
          | cons _ h' =>
              -- keys of ((k,v) :: d) all lie in fs, so f is not among them
              have hkeys_sub : (k :: keysOf d) ⊆ fs := h'.subset
              have hf_notin : f ∉ (k :: keysOf d) := fun hmem => hf_not (hkeys_sub hmem)
              have hcontains : ((keysOf ((k, v) :: d)).contains f) = false := by
                simp [keysOf] at hf_notin ⊢
                simpa using hf_notin
              simp only [dict_exclude_unset, pydModelOfDict, List.map_cons, List.filter_cons]
              rw [hcontains]
              simp only [Bool.false_eq_true, if_false]
              have := ih ((k, v) :: d) h' hnd'
              simpa [dict_exclude_unset, pydModelOfDict] using this
          | cons₂ _ h' =>
              -- k = f: the head field is set; the tail is handled by the IH on d
              simp only [dict_exclude_unset, pydModelOfDict, List.map_cons, List.filter_cons]
              rw [lookup_cons_self]
              have hhead : ((keysOf ((f, v) :: d)).contains f) = true := by
                simp [keysOf]
              rw [hhead]
              simp only [if_true, Option.getD_some]
              congr 1
              have hmap : fs.map (fun k2 => (k2, (List.lookup k2 ((f, v) :: d)).getD Val.none))
                  = fs.map (fun k2 => (k2, (List.lookup k2 d).getD Val.none)) := by
                apply List.map_congr_left
                intro a ha
                have hne : a ≠ f := fun h => hf_not (h ▸ ha)
                rw [lookup_cons_ne a f v d hne]
              rw [hmap]
              have hfil : (fs.map (fun k2 => (k2, (List.lookup k2 d).getD Val.none))).filter
                    (fun kv2 => (keysOf ((f, v) :: d)).contains kv2.1)
                  = (fs.map (fun k2 => (k2, (List.lookup k2 d).getD Val.none))).filter
                    (fun kv2 => (keysOf d).contains kv2.1) := by
                apply List.filter_congr
                intro kv2 hkv2
                obtain ⟨a, ha, rfl⟩ := List.mem_map.mp hkv2
                have hne : a ≠ f := fun h => hf_not (h ▸ ha)
                simp [keysOf, hne]
              rw [hfil]
              have := ih d h' hnd'
              simpa [dict_exclude_unset, pydModelOfDict] using this

lemma keysOf_make_webhook_update_sublist (n : Option String) (e : Option (List String))
    (u s : Option String) (ie te : Option Bool) :
    List.Sublist (keysOf (make_webhook_update n e u s ie te)) updateWebhookFields := by
  unfold make_webhook_update updateWebhookFields
  split_ifs <;> simp [keysOf] <;> decide

lemma keysOf_settings_payload_sublist (a : Option Bool) (q : Option Int) (p : Option String)
    (pay : Payload) (h : make_settings_update a q p = Except.ok pay) :
    List.Sublist (keysOf pay) updateSettingsFields := by
  unfold make_settings_update at h
  split at h
  · exact absurd h (by simp)
  · simp only [Except.ok.injEq] at h
    subst h
    unfold updateSettingsFields
    split_ifs <;> simp [keysOf]

lemma mem_ite_nil (c : Bool) (a : String) (l : List String) :
    (a ∈ if c = true then l else []) ↔ c = true ∧ a ∈ l := by
  cases c <;> simp

lemma pyTruthyStr_isSome {x : Option String} (h : pyTruthyStr x = true) :
    x.isSome = true := by
  cases x <;> simp_all [pyTruthyStr]

lemma pyTruthyList_isSome {x : Option (List String)} (h : pyTruthyList x = true) :
    x.isSome = true := by
  cases x <;> simp_all [pyTruthyList]

lemma pyTruthyBool_isSome {x : Option Bool} (h : pyTruthyBool x = true) :
    x.isSome = true := by
  cases x <;> simp_all [pyTruthyBool]

lemma pyTruthyInt_isSome {x : Option Int} (h : pyTruthyInt x = true) :
    x.isSome = true := by
  cases x <;> simp_all [pyTruthyInt]

lemma keysOf_make_webhook_update (n : Option String) (e : Option (List String))
    (u s : Option String) (ie te : Option Bool) :
    keysOf (make_webhook_update n e u s ie te)
      = (if pyTruthyStr n then ["name"] else [])
        ++ (if pyTruthyList e then ["eventTypeNames"] else [])
        ++ (if pyTruthyStr u then ["url"] else [])
        ++ (if pyTruthyStr s then ["secret"] else [])
        ++ (if ie.isSome then ["isEnabled"] else [])
        ++ (if te.isSome then ["triggerExampleEvent"] else []) := by
  unfold make_webhook_update
  split_ifs <;> simp [keysOf]

lemma keys_webhook_update_provided (n : Option String) (e : Option (List String))
    (u s : Option String) (ie te : Option Bool) :
    ∀ k, k ∈ keysOf (make_webhook_update n e u s ie te)
      → k ∈ providedWebhookUpdateKeys n e u s ie te := by
  intro k hk
  rw [keysOf_make_webhook_update] at hk
  unfold providedWebhookUpdateKeys
  simp only [List.mem_append, mem_ite_nil, or_assoc] at hk ⊢
  rcases hk with ⟨h, hkk⟩ | ⟨h, hkk⟩ | ⟨h, hkk⟩ | ⟨h, hkk⟩ | ⟨h, hkk⟩ | ⟨h, hkk⟩
  · exact Or.inl ⟨pyTruthyStr_isSome h, hkk⟩
  · exact Or.inr (Or.inl ⟨pyTruthyList_isSome h, hkk⟩)
  · exact Or.inr (Or.inr (Or.inl ⟨pyTruthyStr_isSome h, hkk⟩))
  · exact Or.inr (Or.inr (Or.inr (Or.inl ⟨pyTruthyStr_isSome h, hkk⟩)))
  · exact Or.inr (Or.inr (Or.inr (Or.inr (Or.inl ⟨h, hkk⟩))))
  · exact Or.inr (Or.inr (Or.inr (Or.inr (Or.inr ⟨h, hkk⟩))))

lemma no_null_webhook_update (n : Option String) (e : Option (List String))
    (u s : Option String) (ie te : Option Bool) :
    Val.none ∉ (make_webhook_update n e u s ie te).map Prod.snd := by
  unfold make_webhook_update
  split_ifs <;> simp

lemma keysOf_settings_payload (a : Option Bool) (q : Option Int) (p : Option String)
    (pay : Payload) (h : make_settings_update a q p = Except.ok pay) :
    keysOf pay
      = (if pyTruthyBool a then ["homeRoomsActive"] else [])
        ++ (if pyTruthyInt q then ["homeRoomQuota"] else [])
        ++ (if pyTruthyStr p then ["homeRoomParentName"] else []) := by
  unfold make_settings_update at h
  split at h
  · exact absurd h (by simp)
  · simp only [Except.ok.injEq] at h
    subst h
    split_ifs <;> simp [keysOf]

lemma keys_settings_provided (a : Option Bool) (q : Option Int) (p : Option String)
    (pay : Payload) (h : make_settings_update a q p = Except.ok pay) :
    ∀ k, k ∈ keysOf pay → k ∈ providedSettingsKeys a q p := by
  intro k hk
  rw [keysOf_settings_payload a q p pay h] at hk
  unfold providedSettingsKeys
  simp only [List.mem_append, mem_ite_nil, or_assoc] at hk ⊢
  rcases hk with ⟨hb, hkk⟩ | ⟨hb, hkk⟩ | ⟨hb, hkk⟩
  · exact Or.inl ⟨pyTruthyBool_isSome hb, hkk⟩
  · exact Or.inr (Or.inl ⟨pyTruthyInt_isSome hb, hkk⟩)
  · exact Or.inr (Or.inr ⟨pyTruthyStr_isSome hb, hkk⟩)

lemma no_null_settings_payload (a : Option Bool) (q : Option Int) (p : Option String)
    (pay : Payload) (h : make_settings_update a q p = Except.ok pay) :
    Val.none ∉ pay.map Prod.snd := by
  unfold make_settings_update at h
  split at h
  · exact absurd h (by simp)
  · simp only [Except.ok.injEq] at h
    subst h
    split_ifs <;> simp

/-- C7: the serialized bodies of `update_webhook` and `update_settings`
(`dict(exclude_unset=True)` over the dicts built by `make_webhook_update`
and `make_settings_update`) contain exactly the built dict's fields: only
keys whose argument was explicitly provided appear, unset fields are
omitted entirely, and no field is ever serialized as `null`. -/
theorem exclude_unset_update_bodies (n : Option String) (e : Option (List String))
    (u s : Option String) (ie te : Option Bool)
    (a : Option Bool) (q : Option Int) (p : Option String) :
    update_webhook_body (make_webhook_update n e u s ie te)
        = make_webhook_update n e u s ie te
    ∧ (∀ k, k ∈ keysOf (update_webhook_body (make_webhook_update n e u s ie te))
        → k ∈ providedWebhookUpdateKeys n e u s ie te)
    ∧ Val.none ∉ (update_webhook_body (make_webhook_update n e u s ie te)).map Prod.snd
    ∧ (∀ pay, make_settings_update a q p = Except.ok pay →
        update_settings_body pay = pay
        ∧ (∀ k, k ∈ keysOf (update_settings_body pay) → k ∈ providedSettingsKeys a q p)
        ∧ Val.none ∉ (update_settings_body pay).map Prod.snd) := by
  have h1 : update_webhook_body (make_webhook_update n e u s ie te)
      = make_webhook_update n e u s ie te :=
    dict_exclude_unset_ofDict updateWebhookFields _
      (keysOf_make_webhook_update_sublist n e u s ie te) (by decide)
  refine ⟨h1, ?_, ?_, ?_⟩
  · rw [h1]
    exact keys_webhook_update_provided n e u s ie te
  · rw [h1]
    exact no_null_webhook_update n e u s ie te
  · intro pay hp
    have h2 : update_settings_body pay = pay :=
      dict_exclude_unset_ofDict updateSettingsFields pay
        (keysOf_settings_payload_sublist a q p pay hp) (by decide)
    refine ⟨h2, ?_, ?_⟩
    · rw [h2]
      exact keys_settings_provided a q p pay hp
    · rw [h2]
      exact no_null_settings_payload a q p pay hp

/-- Witness for C7 at concrete inputs. -/
theorem exclude_unset_update_bodies_witness :
    update_webhook_body (make_webhook_update (some "hook2") Option.none Option.none
        Option.none (some false) Option.none)
      = make_webhook_update (some "hook2") Option.none Option.none Option.none
          (some false) Option.none
    ∧ update_settings_body [("homeRoomsActive", Val.bool true)]
      = [("homeRoomsActive", Val.bool true)] := by
  exact ⟨(exclude_unset_update_bodies (some "hook2") Option.none Option.none Option.none
      (some false) Option.none (some true) Option.none Option.none).1,
    ((exclude_unset_update_bodies (some "hook2") Option.none Option.none Option.none
      (some false) Option.none (some true) Option.none Option.none).2.2.2
      [("homeRoomsActive", Val.bool true)] rfl).1⟩

/-- Witness for C10 at concrete inputs. -/
theorem init_contract_witness :
    dracoon_settings_init InitArg.notAClient
        = Except.error (InitError.typeError "Invalid DRACOON client format.")
    ∧ dracoon_settings_init (InitArg.client ⟨false, "https://h", "/api/v4"⟩)
        = Except.error
            (InitError.valueError "DRACOON client must be connected: client.connect()")
    ∧ (({ dracoon := ⟨true, "https://h", "/api/v4"⟩,
          api_url := "https://h" ++ "/api/v4" ++ "/settings" } : DRACOONSettings).dracoon.connection
          = true
        ∧ ({ dracoon := ⟨true, "https://h", "/api/v4"⟩,
             api_url := "https://h" ++ "/api/v4" ++ "/settings" } : DRACOONSettings).api_url
          = ({ dracoon := ⟨true, "https://h", "/api/v4"⟩,
               api_url := "https://h" ++ "/api/v4" ++ "/settings" } : DRACOONSettings).dracoon.base_url
            ++ ({ dracoon := ⟨true, "https://h", "/api/v4"⟩,
                  api_url := "https://h" ++ "/api/v4" ++ "/settings" } : DRACOONSettings).dracoon.api_base_url
            ++ "/settings") := by
  refine ⟨?_, ?_, ?_⟩
  · exact (init_contract (InitArg.client ⟨true, "https://h", "/api/v4"⟩)
      ⟨false, "https://h", "/api/v4"⟩
      ⟨⟨true, "https://h", "/api/v4"⟩, "https://h" ++ "/api/v4" ++ "/settings"⟩).1
  · exact (init_contract (InitArg.client ⟨true, "https://h", "/api/v4"⟩)
      ⟨false, "https://h", "/api/v4"⟩
      ⟨⟨true, "https://h", "/api/v4"⟩, "https://h" ++ "/api/v4" ++ "/settings"⟩).2.1 rfl
  · exact (init_contract (InitArg.client ⟨true, "https://h", "/api/v4"⟩)
      ⟨false, "https://h", "/api/v4"⟩
      ⟨⟨true, "https://h", "/api/v4"⟩, "https://h" ++ "/api/v4" ++ "/settings"⟩).2.2 rfl
